import Mathlib

/-!
Verification of the health-dashboard frontend's RBAC and session/auth logic.

The definitions below are a shallow embedding of the TypeScript sources:
- `frontend/src/types/auth.ts` (the `UserRole` enum, the `User` record and
  the `RolePermissions` table),
- `frontend/src/components/Auth/ProtectedRoute.tsx` (the route guard),
- `frontend/src/components/Layout/Sidebar.tsx` (`hasPermission`),
- `frontend/src/services/authService.ts` (the axios client with its request
  and response interceptors, `login`, `logout` and `refreshToken`).

Roles are modelled as the runtime strings the TypeScript enum compiles to, so
that the behaviour of object lookups on role values outside the enum is
captured faithfully (a lookup with such a key yields `undefined` in
JavaScript, and calling `.includes` on it throws a `TypeError`).
-/

namespace HealthDashboard

/-- The `User` record of `frontend/src/types/auth.ts`.  The `role` field
holds the runtime string value of the `UserRole` enum. -/
structure User where
  id : String
  username : String
  email : String
  firstName : String
  lastName : String
  role : String
  isActive : Bool
  lastLogin : Option String
  createdAt : String
  updatedAt : String
  deriving DecidableEq, Repr

/-- Runtime value of `UserRole.MANAGEMENT`. -/
def UserRole.MANAGEMENT : String := "management"

/-- Runtime value of `UserRole.DEVOPS`. -/
def UserRole.DEVOPS : String := "devops"

/-- Runtime value of `UserRole.QA`. -/
def UserRole.QA : String := "qa"

/-- Runtime value of `UserRole.DEV`. -/
def UserRole.DEV : String := "dev"

/-- Runtime value of `UserRole.OTHER`. -/
def UserRole.OTHER : String := "other"

/-- The `RolePermissions` table of `frontend/src/types/auth.ts`, seen as the
JavaScript object lookup `RolePermissions[role]`: the five enum keys map to
their permission arrays, any other key yields `undefined` (here `none`). -/
def RolePermissions (role : String) : Option (List String) :=
  if role = UserRole.MANAGEMENT then
    some ["dashboard:read", "system-health:read", "performance:read",
          "alerts:read", "alerts:write", "users:read", "users:write",
          "settings:read", "settings:write"]
  else if role = UserRole.DEVOPS then
    some ["dashboard:read", "system-health:read", "performance:read",
          "alerts:read", "alerts:write", "settings:read"]
  else if role = UserRole.QA then
    some ["dashboard:read", "system-health:read", "performance:read",
          "settings:read"]
  else if role = UserRole.DEV then
    some ["dashboard:read", "system-health:read", "performance:read",
          "settings:read"]
  else if role = UserRole.OTHER then
    some ["dashboard:read", "system-health:read"]
  else none

/-- `hasPermission` from `Sidebar.tsx`:
`if (!user) return false; return RolePermissions[user.role].includes(permission);`.
When `RolePermissions[user.role]` is `undefined` (a role outside the enum),
`.includes` throws a `TypeError`; this is modelled by `Except.error`. -/
def hasPermission (user : Option User) (permission : String) : Except String Bool :=
  match user with
  | none => Except.ok false
  | some u =>
    match RolePermissions u.role with
    | some perms => Except.ok (perms.contains permission)
    | none => Except.error "TypeError"

/-- Result of one evaluation of the route guard: render nothing while
loading, redirect, or render the guarded children. -/
inductive GuardResult where
  | loading
  | redirect (target : String)
  | render
  deriving DecidableEq, Repr

/-- `ProtectedRoute` from `frontend/src/components/Auth/ProtectedRoute.tsx`.
`allowedRoles` is `none` when the prop is omitted (`undefined`, falsy in JS)
and `some roles` when an array is passed; a JavaScript array is truthy even
when empty, so `allowedRoles && !allowedRoles.includes(user.role)` runs the
membership test for every present array, the empty one included. -/
def ProtectedRoute (isLoading isAuthenticated : Bool) (user : Option User)
    (allowedRoles : Option (List String)) : GuardResult :=
  if isLoading then GuardResult.loading
  else if !isAuthenticated || user.isNone then GuardResult.redirect "/login"
  else
    match user with
    | none => GuardResult.redirect "/login"
    | some u =>
      match allowedRoles with
      | none => GuardResult.render
      | some roles =>
        if roles.contains u.role then GuardResult.render
        else GuardResult.redirect "/dashboard"

/-! ### Session client (`frontend/src/services/authService.ts`)

Durable storage (`localStorage` keys `token` and `refreshToken`) and the
`window.location` navigation target are gathered in `ClientState`.  A network
request is reduced to its `_retry` flag and `Authorization` header; server
behaviour is an environment giving the outcome of the first transmission, of
the `/auth/refresh` call, and of the re-transmission. -/

/-- Durable client state: the two `localStorage` entries plus the navigation
target assigned to `window.location.href`, if any. -/
structure ClientState where
  token : Option String
  refreshToken : Option String
  location : Option String
  deriving DecidableEq, Repr

/-- The request config: the `_retry` marker set by the response interceptor
and the `Authorization` header. -/
structure Request where
  retry : Bool
  auth : Option String
  deriving DecidableEq, Repr

/-- An axios rejection: `status` is `error.response?.status`, `none` when the
error carries no response (network failure). -/
structure AxiosError where
  status : Option Nat
  deriving DecidableEq, Repr

/-- Outcome of one transmission of a request: a 2xx response with a body, or
an error with an optional HTTP status. -/
inductive HttpOutcome (α : Type) where
  | ok (body : α)
  | err (status : Option Nat)
  deriving DecidableEq, Repr

/-- Server behaviour for one request's lifetime: the response to the first
transmission, the result of `POST /auth/refresh` (`some newToken` on success,
`none` on any failure — non-2xx or network error, both of which reject in
axios), and the response to the single re-transmission. -/
structure Env (α : Type) where
  first : HttpOutcome α
  refresh : Option String
  second : HttpOutcome α
  deriving DecidableEq, Repr

/-- Result of dispatching one request through `apiClient`: the client state
afterwards, the settled promise, the requests actually transmitted (in
order), and how many times `POST /auth/refresh` was attempted. -/
structure DispatchResult (α : Type) where
  state : ClientState
  outcome : Except AxiosError α
  sent : List Request
  refreshCalls : Nat

/-- The request interceptor (`authService.ts` lines 15–26): if a token is in
storage, set `Authorization: Bearer <token>`. -/
def requestInterceptor (st : ClientState) (req : Request) : Request :=
  match st.token with
  | some t => { req with auth := some ("Bearer " ++ t) }
  | none => req

/-- Dispatch of a request whose `_retry` flag is already set (the single
re-transmission issued by the response interceptor).  The interceptor's 401
branch requires `!originalRequest._retry`, which fails here, so every error
is rejected unchanged and no further refresh or re-dispatch happens. -/
def dispatchRetried {α : Type} (env : Env α) (st : ClientState)
    (req : Request) : DispatchResult α :=
  let req1 := requestInterceptor st req
  match env.second with
  | HttpOutcome.ok body => ⟨st, Except.ok body, [req1], 0⟩
  | HttpOutcome.err s => ⟨st, Except.error ⟨s⟩, [req1], 0⟩

/-- Dispatch of a request through `apiClient` (`authService.ts` lines
29–60).  On a 401 with `_retry` unset, the interceptor sets `_retry`, and if
a refresh token is stored it calls `POST /auth/refresh`; on refresh success
it stores the new access token, rewrites the `Authorization` header and
re-dispatches the original request (whose own rejection, being a plain
`return` of a promise inside the `try`, does not reach the `catch`); on
refresh failure the `catch` clears both storage entries and navigates to
`/login`, and the original error is rejected.  Without a stored refresh
token nothing happens and the original error is rejected. -/
def dispatchFirst {α : Type} (env : Env α) (st : ClientState)
    (req : Request) : DispatchResult α :=
  let req1 := requestInterceptor st req
  match env.first with
  | HttpOutcome.ok body => ⟨st, Except.ok body, [req1], 0⟩
  | HttpOutcome.err s =>
    if s = some 401 ∧ req1.retry = false then
      let reqR : Request := { req1 with retry := true }
      match st.refreshToken with
      | some _ =>
        match env.refresh with
        | some newTok =>
          let st1 : ClientState := { st with token := some newTok }
          let reqR1 : Request := { reqR with auth := some ("Bearer " ++ newTok) }
          let r2 := dispatchRetried env st1 reqR1
          ⟨r2.state, r2.outcome, req1 :: r2.sent, 1 + r2.refreshCalls⟩
        | none =>
          ⟨{ st with
             token := none
             refreshToken := none
             location := some "/login" },
           Except.error ⟨s⟩, [req1], 1⟩
      | none => ⟨st, Except.error ⟨s⟩, [req1], 0⟩
    else ⟨st, Except.error ⟨s⟩, [req1], 0⟩

/-- Body of a successful `POST /auth/login` response:
`{ user, token, refreshToken }`. -/
structure LoginBody where
  user : User
  token : String
  refreshToken : String
  deriving DecidableEq, Repr

/-- `authService.login` (lines 63–72): posts the credentials through
`apiClient` (so the interceptors apply), and only on fulfilment stores both
returned tokens; a rejection propagates before the `setItem` calls run. -/
def login (env : Env LoginBody) (st : ClientState) :
    ClientState × Except AxiosError LoginBody :=
  let r := dispatchFirst env st { retry := false, auth := none }
  match r.outcome with
  | Except.ok body =>
    ({ r.state with
       token := some body.token
       refreshToken := some body.refreshToken }, Except.ok body)
  | Except.error e => (r.state, Except.error e)

/-- `authService.logout` (lines 74–82): posts `/auth/logout` through
`apiClient` inside a `try` whose `finally` removes both storage entries, so
the cleanup runs on every exit path; the call's own outcome (success or
rejection) then propagates. -/
def logout {α : Type} (env : Env α) (st : ClientState) :
    ClientState × Except AxiosError Unit :=
  let r := dispatchFirst env st { retry := false, auth := none }
  ({ r.state with token := none, refreshToken := none },
   r.outcome.map fun _ => ())

/-- Body of a successful `POST /auth/refresh` response used by
`authService.refreshToken`: `{ user, token }`. -/
structure RefreshBody where
  user : User
  token : String
  deriving DecidableEq, Repr

/-- `authService.refreshToken` (lines 94–108): throws when no refresh token
is stored; otherwise posts the stored refresh token with plain `axios` (no
interceptors), and on success stores the new access token — the
`refreshToken` storage entry is never written. -/
def refreshToken (env : Option RefreshBody) (st : ClientState) :
    ClientState × Except String LoginBody :=
  match st.refreshToken with
  | none => (st, Except.error "No refresh token available")
  | some rt =>
    match env with
    | none => (st, Except.error "RefreshInvalid")
    | some body =>
      ({ st with token := some body.token },
       Except.ok ⟨body.user, body.token, rt⟩)

/-- The Session snapshot held by the Redux store: authenticated flag and the
current user. -/
structure Session where
  isAuthenticated : Bool
  user : Option User
  deriving DecidableEq, Repr

/-- Modelled from the spec: the Redux auth slice (not under `src/`) resets
the Session to unauthenticated when the logout action settles, regardless of
the server call's outcome ("resets Session to unauthenticated"). -/
def sessionAfterLogout : Session := ⟨false, none⟩

/-- Modelled from the spec: the Redux auth slice (not under `src/`) marks the
Session authenticated with the returned user when login fulfils, and leaves
it unauthenticated when login rejects ("fails with InvalidCredentials on
non-2xx response, leaving Session unauthenticated"). -/
def sessionAfterLogin (res : Except AxiosError LoginBody) : Session :=
  match res with
  | Except.ok body => ⟨true, some body.user⟩
  | Except.error _ => ⟨false, none⟩

/-- A sample authenticated user whose role is `devops`. -/
def devopsUser : User :=
  ⟨"u1", "dev1", "dev1@example.com", "Dev", "Ops", "devops", true, none,
   "2024-01-01", "2024-01-01"⟩

/-- A sample user whose role string is outside the `UserRole` enum. -/
def adminUser : User :=
  ⟨"u2", "admin1", "admin1@example.com", "Ad", "Min", "admin", true, none,
   "2024-01-01", "2024-01-01"⟩

end HealthDashboard

namespace HealthDashboard

/-- C1 (counterexample): with an authenticated session and
`allowedRoles = []`, the guard redirects to `/dashboard` instead of rendering
the guarded content — the empty list denies every role. -/
theorem c1_empty_allowed_roles_denies :
    ProtectedRoute false true (some devopsUser) (some []) =
      GuardResult.redirect "/dashboard" ∧
    ProtectedRoute false true (some devopsUser) (some []) ≠
      GuardResult.render := by
  constructor
  · rfl
  · decide

/-- C1 (amended): for an authenticated, non-loading session, a route rule
with absent `allowedRoles` renders the guarded content for every role; a
route rule with the empty `allowedRoles` list fails the membership test for
every role and redirects to `/dashboard` (deny-all), because an empty
JavaScript array is truthy. -/
theorem c1_route_guard_absent_roles_allows (u : User) :
    ProtectedRoute false true (some u) none = GuardResult.render ∧
    ProtectedRoute false true (some u) (some []) =
      GuardResult.redirect "/dashboard" := by
  constructor <;> simp [ProtectedRoute]

/-- C7: the route guard (with session restoration finished) redirects every
unauthenticated evaluation to `/login`; with a non-empty `allowedRoles` list
not containing the session user's role it redirects to `/dashboard`; in
particular a rule restricted to `management` redirects a `devops` session to
`/dashboard`. -/
theorem c7_route_guard_redirects (user : Option User)
    (allowedRoles : Option (List String)) (u : User) (rl : List String)
    (_hne : rl ≠ []) (hmem : rl.contains u.role = false) :
    ProtectedRoute false false user allowedRoles =
      GuardResult.redirect "/login" ∧
    ProtectedRoute false true (some u) (some rl) =
      GuardResult.redirect "/dashboard" ∧
    ProtectedRoute false true (some devopsUser) (some ["management"]) =
      GuardResult.redirect "/dashboard" := by
  refine ⟨by simp [ProtectedRoute], ?_, by rfl⟩
  simp only [ProtectedRoute, if_false, Bool.not_true, Option.isNone_some,
    Bool.false_or, Bool.or_self, hmem, if_neg, Bool.false_eq_true]

/-- C7 (witness): concrete instance of `c7_route_guard_redirects`. -/
theorem c7_route_guard_redirects_witness :
    ProtectedRoute false false none none = GuardResult.redirect "/login" ∧
    ProtectedRoute false true (some devopsUser) (some ["management"]) =
      GuardResult.redirect "/dashboard" :=
  ⟨(c7_route_guard_redirects none none devopsUser ["management"]
      (by decide) (by decide)).1,
   (c7_route_guard_redirects none none devopsUser ["management"]
      (by decide) (by decide)).2.2⟩

/-- C9: when the session has no user, `hasPermission` returns `false` for
every permission queried, and does not throw. -/
theorem c9_hasPermission_no_user (permission : String) :
    hasPermission none permission = Except.ok false := rfl

/-- C2 (counterexample): for the role string `"admin"`, which is outside the
enumerated set, the `RolePermissions` lookup yields no entry and
`hasPermission` throws a `TypeError` instead of returning `false`. -/
theorem c2_unmapped_role_throws :
    RolePermissions "admin" = none ∧
    hasPermission (some adminUser) "dashboard:read" =
      Except.error "TypeError" ∧
    hasPermission (some adminUser) "dashboard:read" ≠ Except.ok false := by
  refine ⟨rfl, rfl, ?_⟩
  intro h
  simp [hasPermission, adminUser, RolePermissions, UserRole.MANAGEMENT,
    UserRole.DEVOPS, UserRole.QA, UserRole.DEV, UserRole.OTHER] at h

/-- C2 (amended): the `RolePermissions` lookup returns the exact static
permission set for each of the five enumerated roles, but for a role string
outside the enumeration the lookup yields no entry (`undefined`), and
`hasPermission` on a user with such a role throws a `TypeError` rather than
returning `false` — the lookup does not fail closed. -/
theorem c2_permissions_table (u : User) (p : String)
    (g1 : u.role ≠ "management") (g2 : u.role ≠ "devops")
    (g3 : u.role ≠ "qa") (g4 : u.role ≠ "dev") (g5 : u.role ≠ "other") :
    RolePermissions "management" =
      some ["dashboard:read", "system-health:read", "performance:read",
            "alerts:read", "alerts:write", "users:read", "users:write",
            "settings:read", "settings:write"] ∧
    RolePermissions "devops" =
      some ["dashboard:read", "system-health:read", "performance:read",
            "alerts:read", "alerts:write", "settings:read"] ∧
    RolePermissions "qa" =
      some ["dashboard:read", "system-health:read", "performance:read",
            "settings:read"] ∧
    RolePermissions "dev" =
      some ["dashboard:read", "system-health:read", "performance:read",
            "settings:read"] ∧
    RolePermissions "other" =
      some ["dashboard:read", "system-health:read"] ∧
    RolePermissions u.role = none ∧
    hasPermission (some u) p = Except.error "TypeError" := by
  refine ⟨rfl, rfl, rfl, rfl, rfl, ?_, ?_⟩
  · simp [RolePermissions, UserRole.MANAGEMENT, UserRole.DEVOPS, UserRole.QA,
      UserRole.DEV, UserRole.OTHER, g1, g2, g3, g4, g5]
  · simp [hasPermission, RolePermissions, UserRole.MANAGEMENT, UserRole.DEVOPS,
      UserRole.QA, UserRole.DEV, UserRole.OTHER, g1, g2, g3, g4, g5]

/-- C2 (witness): concrete instance of `c2_permissions_table` at the user
with role `"admin"`. -/
theorem c2_permissions_table_witness :
    RolePermissions adminUser.role = none ∧
    hasPermission (some adminUser) "users:read" = Except.error "TypeError" :=
  ⟨(c2_permissions_table adminUser "users:read" (by decide) (by decide)
      (by decide) (by decide) (by decide)).2.2.2.2.2.1,
   (c2_permissions_table adminUser "users:read" (by decide) (by decide)
      (by decide) (by decide) (by decide)).2.2.2.2.2.2⟩

/-- The request interceptor only rewrites the `Authorization` header; the
`_retry` marker is untouched. -/
theorem requestInterceptor_retry (st : ClientState) (req : Request) :
    (requestInterceptor st req).retry = req.retry := by
  unfold requestInterceptor
  cases st.token <;> rfl

/-- C3: for every original request (`_retry` unset), the client attempts at
most one refresh and transmits the request at most twice; when the first
transmission yields a 401, a refresh token is stored and the single refresh
succeeds, the request is re-transmitted exactly once, carrying the new access
token in its `Authorization` header; a second 401 on the re-transmission is
never followed by another refresh or re-dispatch. -/
theorem c3_single_retry {α : Type} (env : Env α) (st : ClientState)
    (req : Request) (h : req.retry = false) :
    (dispatchFirst env st req).refreshCalls ≤ 1 ∧
    (dispatchFirst env st req).sent.length ≤ 2 ∧
    (∀ tok, env.first = HttpOutcome.err (some 401) →
      st.refreshToken.isSome = true → env.refresh = some tok →
      (dispatchFirst env st req).sent.length = 2 ∧
      (dispatchFirst env st req).sent.getLast?.map Request.auth =
        some (some ("Bearer " ++ tok))) := by
  have hri := requestInterceptor_retry st req
  obtain ⟨first, refresh, second⟩ := env
  cases first with
  | ok body =>
    refine ⟨by simp [dispatchFirst], by simp [dispatchFirst], ?_⟩
    intro tok hfirst
    exact absurd hfirst (by simp)
  | err s =>
    by_cases hs : s = some 401
    · subst hs
      cases hrt : st.refreshToken with
      | none =>
        refine ⟨by simp [dispatchFirst, hrt, hri, h],
                by simp [dispatchFirst, hrt, hri, h], ?_⟩
        intro tok _ hsome
        exact absurd hsome (by simp)
      | some rt =>
        cases href : refresh with
        | none =>
          refine ⟨by simp [dispatchFirst, hrt, hri, h, href],
                  by simp [dispatchFirst, hrt, hri, h, href], ?_⟩
          intro tok _ _ htok
          exact absurd htok (by simp)
        | some tok =>
          cases second with
          | ok body =>
            refine ⟨by simp [dispatchFirst, dispatchRetried, hrt, hri, h, href],
                    by simp [dispatchFirst, dispatchRetried, hrt, hri, h, href],
                    ?_⟩
            intro tok2 _ _ htok2
            obtain rfl : tok = tok2 := by simpa using htok2
            cases htk : st.token <;>
              simp [dispatchFirst, dispatchRetried, requestInterceptor,
                hrt, htk, h]
          | err s2 =>
            refine ⟨by simp [dispatchFirst, dispatchRetried, hrt, hri, h, href],
                    by simp [dispatchFirst, dispatchRetried, hrt, hri, h, href],
                    ?_⟩
            intro tok2 _ _ htok2
            obtain rfl : tok = tok2 := by simpa using htok2
            cases htk : st.token <;>
              simp [dispatchFirst, dispatchRetried, requestInterceptor,
                hrt, htk, h]
    · refine ⟨by simp [dispatchFirst, hri, h, hs],
              by simp [dispatchFirst, hri, h, hs], ?_⟩
      intro tok hfirst
      rw [show (HttpOutcome.err (α := α) s = HttpOutcome.err (some 401)) =
        (s = some 401) by simp] at hfirst
      exact absurd hfirst hs

/-- C3 (witness): concrete run in which the first transmission receives a
401, the refresh succeeds, and the re-transmission receives a second 401. -/
theorem c3_single_retry_witness :
    (dispatchFirst (α := String)
        ⟨HttpOutcome.err (some 401), some "newTok", HttpOutcome.err (some 401)⟩
        ⟨some "oldTok", some "refTok", none⟩ ⟨false, none⟩).refreshCalls ≤ 1 ∧
    (dispatchFirst (α := String)
        ⟨HttpOutcome.err (some 401), some "newTok", HttpOutcome.err (some 401)⟩
        ⟨some "oldTok", some "refTok", none⟩ ⟨false, none⟩).sent.length = 2 := by
  have h := c3_single_retry (α := String)
    ⟨HttpOutcome.err (some 401), some "newTok", HttpOutcome.err (some 401)⟩
    ⟨some "oldTok", some "refTok", none⟩ ⟨false, none⟩ rfl
  exact ⟨h.1, (h.2.2 "newTok" rfl rfl rfl).1⟩

/-- C4: when a request (with `_retry` unset) receives a 401 and the attempted
refresh fails, both storage entries are removed, the browser is navigated to
`/login`, and the original 401 error is still rejected to the caller. -/
theorem c4_refresh_failure_clears {α : Type} (env : Env α) (st : ClientState)
    (req : Request) (rt : String) (h : req.retry = false)
    (h1 : env.first = HttpOutcome.err (some 401))
    (h2 : st.refreshToken = some rt) (h3 : env.refresh = none) :
    (dispatchFirst env st req).state.token = none ∧
    (dispatchFirst env st req).state.refreshToken = none ∧
    (dispatchFirst env st req).state.location = some "/login" ∧
    (dispatchFirst env st req).outcome = Except.error ⟨some 401⟩ := by
  have hri := requestInterceptor_retry st req
  simp [dispatchFirst, h1, h2, h3, hri, h]

/-- C4 (witness): concrete instance of `c4_refresh_failure_clears`. -/
theorem c4_refresh_failure_clears_witness :
    (dispatchFirst (α := String)
        ⟨HttpOutcome.err (some 401), none, HttpOutcome.ok "x"⟩
        ⟨some "oldTok", some "refTok", none⟩ ⟨false, none⟩).state.token = none ∧
    (dispatchFirst (α := String)
        ⟨HttpOutcome.err (some 401), none, HttpOutcome.ok "x"⟩
        ⟨some "oldTok", some "refTok", none⟩
        ⟨false, none⟩).state.refreshToken = none ∧
    (dispatchFirst (α := String)
        ⟨HttpOutcome.err (some 401), none, HttpOutcome.ok "x"⟩
        ⟨some "oldTok", some "refTok", none⟩
        ⟨false, none⟩).state.location = some "/login" ∧
    (dispatchFirst (α := String)
        ⟨HttpOutcome.err (some 401), none, HttpOutcome.ok "x"⟩
        ⟨some "oldTok", some "refTok", none⟩
        ⟨false, none⟩).outcome = Except.error ⟨some 401⟩ :=
  c4_refresh_failure_clears _ _ _ "refTok" rfl rfl rfl rfl

/-- C10: when a request (with `_retry` unset) receives a 401 while no refresh
token is stored, the interceptor attempts no refresh, leaves storage and the
navigation target unchanged, transmits nothing further, and rejects the
original 401 error. -/
theorem c10_401_without_refresh_token {α : Type} (env : Env α)
    (st : ClientState) (req : Request) (h : req.retry = false)
    (h1 : env.first = HttpOutcome.err (some 401))
    (h2 : st.refreshToken = none) :
    (dispatchFirst env st req).state = st ∧
    (dispatchFirst env st req).refreshCalls = 0 ∧
    (dispatchFirst env st req).sent.length = 1 ∧
    (dispatchFirst env st req).outcome = Except.error ⟨some 401⟩ := by
  have hri := requestInterceptor_retry st req
  simp [dispatchFirst, h1, h2, hri, h]

/-- C10 (witness): concrete instance of `c10_401_without_refresh_token`. -/
theorem c10_401_without_refresh_token_witness :
    (dispatchFirst (α := String)
        ⟨HttpOutcome.err (some 401), none, HttpOutcome.ok "x"⟩
        ⟨some "oldTok", none, none⟩ ⟨false, none⟩).state =
      ⟨some "oldTok", none, none⟩ ∧
    (dispatchFirst (α := String)
        ⟨HttpOutcome.err (some 401), none, HttpOutcome.ok "x"⟩
        ⟨some "oldTok", none, none⟩ ⟨false, none⟩).refreshCalls = 0 ∧
    (dispatchFirst (α := String)
        ⟨HttpOutcome.err (some 401), none, HttpOutcome.ok "x"⟩
        ⟨some "oldTok", none, none⟩ ⟨false, none⟩).sent.length = 1 ∧
    (dispatchFirst (α := String)
        ⟨HttpOutcome.err (some 401), none, HttpOutcome.ok "x"⟩
        ⟨some "oldTok", none, none⟩ ⟨false, none⟩).outcome =
      Except.error ⟨some 401⟩ :=
  c10_401_without_refresh_token _ _ _ rfl rfl rfl

/-- C5: whatever the server's answer to the invalidation call (2xx, non-2xx
or network failure, and whatever the interceptor did meanwhile), `logout`
leaves both storage entries empty, and the session ends unauthenticated
(session flag modelled from the spec, see `sessionAfterLogout`). -/
theorem c5_logout_always_clears {α : Type} (env : Env α) (st : ClientState) :
    (logout env st).1.token = none ∧
    (logout env st).1.refreshToken = none ∧
    sessionAfterLogout.isAuthenticated = false :=
  ⟨rfl, rfl, rfl⟩

/-- C6 (counterexample): a failed login does not always leave storage
unchanged.  With a stale refresh token stored, a 401 to the login request
triggers the shared response interceptor, whose successful refresh writes a
new access token to storage before the retried login fails again — so login
rejects, yet storage differs from its pre-call value. -/
theorem c6_login_error_path_writes_storage :
    (login ⟨HttpOutcome.err (some 401), some "newTok", HttpOutcome.err (some 401)⟩
        ⟨some "oldTok", some "refTok", none⟩).2 = Except.error ⟨some 401⟩ ∧
    (login ⟨HttpOutcome.err (some 401), some "newTok", HttpOutcome.err (some 401)⟩
        ⟨some "oldTok", some "refTok", none⟩).1.token = some "newTok" ∧
    (login ⟨HttpOutcome.err (some 401), some "newTok", HttpOutcome.err (some 401)⟩
        ⟨some "oldTok", some "refTok", none⟩).1 ≠
      ⟨some "oldTok", some "refTok", none⟩ := by
  refine ⟨rfl, rfl, ?_⟩
  decide

/-- C6 (amended): on a 2xx response `login` persists both returned tokens and
the session becomes authenticated with the returned user; on a rejection the
session stays unauthenticated (session flag modelled from the spec, see
`sessionAfterLogin`); storage is unchanged on the error path whenever the
failure is not a 401, or is a 401 with no stored refresh token — but not in
general, since a 401 with a stored refresh token lets the shared interceptor
rewrite storage (see the counterexample). -/
theorem c6_login_contract (env : Env LoginBody) (st : ClientState) :
    (∀ body, (login env st).2 = Except.ok body →
      (login env st).1.token = some body.token ∧
      (login env st).1.refreshToken = some body.refreshToken ∧
      sessionAfterLogin (login env st).2 = ⟨true, some body.user⟩) ∧
    (∀ e, (login env st).2 = Except.error e →
      sessionAfterLogin (login env st).2 = ⟨false, none⟩) ∧
    (∀ s, env.first = HttpOutcome.err s → s ≠ some 401 →
      (login env st).1 = st ∧ (login env st).2 = Except.error ⟨s⟩) ∧
    (env.first = HttpOutcome.err (some 401) → st.refreshToken = none →
      (login env st).1 = st ∧
      (login env st).2 = Except.error ⟨some 401⟩) := by
  have hri := requestInterceptor_retry st (⟨false, none⟩ : Request)
  refine ⟨?_, ?_, ?_, ?_⟩
  · intro body hb
    cases ho : (dispatchFirst env st ⟨false, none⟩).outcome with
    | ok b =>
      rw [login, ho] at hb ⊢
      simp only [Except.ok.injEq] at hb
      subst hb
      exact ⟨rfl, rfl, rfl⟩
    | error e =>
      rw [login, ho] at hb
      exact absurd hb (by simp)
  · intro e he
    cases ho : (dispatchFirst env st ⟨false, none⟩).outcome with
    | ok b =>
      rw [login, ho] at he
      exact absurd he (by simp)
    | error e2 =>
      rw [login, ho] at he ⊢
      simp [sessionAfterLogin]
  · intro s hfirst hneq
    constructor <;> simp [login, dispatchFirst, hfirst, hneq]
  · intro hfirst hnone
    constructor <;> simp [login, dispatchFirst, hfirst, hnone, hri]

/-- C6 (witness): concrete instance of `c6_login_contract` — a 500 response
to login rejects and leaves storage untouched. -/
theorem c6_login_contract_witness :
    (login ⟨HttpOutcome.err (some 500), none, HttpOutcome.err none⟩
        ⟨none, none, none⟩).1 = ⟨none, none, none⟩ ∧
    (login ⟨HttpOutcome.err (some 500), none, HttpOutcome.err none⟩
        ⟨none, none, none⟩).2 = Except.error ⟨some 500⟩ :=
  (c6_login_contract ⟨HttpOutcome.err (some 500), none, HttpOutcome.err none⟩
    ⟨none, none, none⟩).2.2.1 (some 500) rfl (by decide)

/-- C8: a successful `refreshToken()` writes the newly returned access token
to storage and leaves the stored refresh token exactly as it was before the
call (no rotation). -/
theorem c8_refresh_does_not_rotate (env : Option RefreshBody)
    (st : ClientState) (body : RefreshBody) (rt : String)
    (h1 : st.refreshToken = some rt) (h2 : env = some body) :
    (refreshToken env st).1.token = some body.token ∧
    (refreshToken env st).1.refreshToken = st.refreshToken ∧
    (refreshToken env st).2 = Except.ok ⟨body.user, body.token, rt⟩ := by
  subst h2
  simp [refreshToken, h1]

/-- C8 (witness): concrete instance of `c8_refresh_does_not_rotate`. -/
theorem c8_refresh_does_not_rotate_witness :
    (refreshToken (some ⟨devopsUser, "newTok"⟩)
        ⟨some "oldTok", some "refTok", none⟩).1.token = some "newTok" ∧
    (refreshToken (some ⟨devopsUser, "newTok"⟩)
        ⟨some "oldTok", some "refTok", none⟩).1.refreshToken =
      (⟨some "oldTok", some "refTok", none⟩ : ClientState).refreshToken ∧
    (refreshToken (some ⟨devopsUser, "newTok"⟩)
        ⟨some "oldTok", some "refTok", none⟩).2 =
      Except.ok ⟨devopsUser, "newTok", "refTok"⟩ :=
  c8_refresh_does_not_rotate (some ⟨devopsUser, "newTok"⟩)
    ⟨some "oldTok", some "refTok", none⟩ ⟨devopsUser, "newTok"⟩ "refTok"
    rfl rfl

end HealthDashboard
